import Mathlib

/-!
Shallow embedding of the bridge core of `src/trydan2mqtt.py` (the
`TrydanMQTTBridge` class and the `main` entry point), together with proofs
of the behavioural properties of its command dispatch, publish path,
poll loop and lifecycle.
-/

namespace Trydan2Mqtt

/-- A scalar value as it sits in a snapshot dictionary: the Python values the
bridge handles are strings, integers and booleans (device fields are opaque
scalars). -/
inductive Value where
  | str (s : String)
  | int (n : Int)
  | bool (b : Bool)
  deriving DecidableEq, Repr

/-- The Python `str()` form of a scalar value, as used for per-field MQTT
payloads (`str(value)` in `_publish_data`). -/
def Value.toStr : Value → String
  | .str s => s
  | .int n => toString n
  | .bool b => if b then "True" else "False"

/-- One MQTT publish call: topic, payload, and the retain flag. -/
structure Message where
  topic : String
  payload : String
  retain : Bool
  deriving DecidableEq, Repr

/-- A device operation invoked on the Trydan client by `_handle_command`:
`intensity(n)`, `pause(True)`, `resume()`, `lock()`, `unlock()`. -/
inductive DeviceCall where
  | intensity (n : Int)
  | pause
  | resume
  | lock
  | unlock
  deriving DecidableEq, Repr

/-- Value of a run of decimal digit characters (most significant first). -/
def natOfDigits (cs : List Char) : Nat :=
  cs.foldl (fun acc c => acc * 10 + (c.toNat - 48)) 0

/-- Modelled from the spec: the decimal fragment of the Python built-in
`float()` applied to a payload string — an optional run of digits, an
optional point, an optional fractional digit run, at least one digit in all
(`"16"`, `"16.9"`, `".5"`, `"5."` parse; `"abc"`, `""`, `"."` do not).
Exponent forms, surrounding whitespace, underscores and `inf`/`nan` are
outside the fragment the bridge spec exercises and are not modelled.
The result is the exact rational denoted by the literal. -/
def parseUnsigned (cs : List Char) : Option Rat :=
  let intPart := cs.takeWhile Char.isDigit
  let rest := cs.dropWhile Char.isDigit
  match rest with
  | [] => if intPart.isEmpty then none else some (natOfDigits intPart : Rat)
  | '.' :: frac =>
      if (!intPart.isEmpty || !frac.isEmpty) && frac.all Char.isDigit then
        some ((natOfDigits intPart : Rat) +
          (natOfDigits frac : Rat) / ((10 : Rat) ^ frac.length))
      else none
  | _ => none

/-- Modelled from the spec: Python `float(payload)` on a decimal literal with
an optional sign; `none` models the `ValueError` raised on anything else. -/
def pyFloat (s : String) : Option Rat :=
  match s.toList with
  | '+' :: cs => parseUnsigned cs
  | '-' :: cs => (parseUnsigned cs).map Neg.neg
  | cs => parseUnsigned cs

/-- Python `int()` on a finite float: truncation toward zero (floor for
nonnegative arguments, ceiling for negative ones). -/
def truncToZero (q : Rat) : Int :=
  if q < 0 then Int.ceil q else Int.floor q

/-- What one invocation of `_handle_command` did: the device operations it
invoked (in order), whether it logged at error level, whether it logged the
unknown-command warning, and whether an exception escaped the handler back
to the caller (the bus side). -/
structure HandleResult where
  calls : List DeviceCall
  errorLogged : Bool
  warnLogged : Bool
  raised : Bool
  deriving DecidableEq, Repr

/-- Embedding of `TrydanMQTTBridge._handle_command(command, payload)`.
`connected` is the `self.trydan` truthiness test; `deviceRaises` abstracts
whether the awaited device call raises (the body is wrapped in a broad
`try/except` that logs and swallows every exception, so nothing ever
propagates to the bus: `raised` is `false` on every path). -/
def handleCommand (connected deviceRaises : Bool) (command payload : String) :
    HandleResult :=
  if connected = false then
    { calls := [], errorLogged := true, warnLogged := false, raised := false }
  else if command = "set_charge_current" then
    match pyFloat payload with
    | some q =>
        { calls := [.intensity (truncToZero q)], errorLogged := deviceRaises,
          warnLogged := false, raised := false }
    | none =>
        { calls := [], errorLogged := true, warnLogged := false,
          raised := false }
  else if command = "pause_charge" then
    { calls := [.pause], errorLogged := deviceRaises, warnLogged := false,
      raised := false }
  else if command = "resume_charge" then
    { calls := [.resume], errorLogged := deviceRaises, warnLogged := false,
      raised := false }
  else if command = "lock" then
    { calls := [.lock], errorLogged := deviceRaises, warnLogged := false,
      raised := false }
  else if command = "unlock" then
    { calls := [.unlock], errorLogged := deviceRaises, warnLogged := false,
      raised := false }
  else
    { calls := [], errorLogged := false, warnLogged := true, raised := false }

/-- The command names `_handle_command` recognises. -/
def knownCommands : List String :=
  ["set_charge_current", "pause_charge", "resume_charge", "lock", "unlock"]

example : pyFloat "16" = some 16 := by
  have h : "16".toList = ['1', '6'] := by rfl
  simp [pyFloat, h, parseUnsigned, natOfDigits]
example : pyFloat "abc" = none := by
  have h : "abc".toList = ['a', 'b', 'c'] := by rfl
  simp [pyFloat, h, parseUnsigned, natOfDigits]
example : pyFloat "16.9" = some (169 / 10) := by
  have h : "16.9".toList = ['1', '6', '.', '9'] := by rfl
  simp [pyFloat, h, parseUnsigned, natOfDigits]
  norm_num
example : truncToZero (169 / 10) = 16 := by
  rw [truncToZero, if_neg (by norm_num)]
  norm_num

/-- A snapshot as built by `_read_trydan_data`: a Python dict, embedded as an
association list in insertion order (Python dicts preserve it). -/
abbrev Snapshot : Type := List (String × Value)

/-- `json.dumps` of a value, on the scalar types a snapshot holds (string
escaping of exotic characters is not exercised by the bridge). -/
def jsonValue : Value → String
  | .str s => "\"" ++ s ++ "\""
  | .int n => toString n
  | .bool b => if b then "true" else "false"

/-- `json.dumps` of a snapshot dict: key/value pairs in insertion order with
the default `", "` and `": "` separators. -/
def jsonDump (data : List (String × Value)) : String :=
  "\x7b" ++ String.intercalate ", "
    (data.map fun kv => "\"" ++ kv.1 ++ "\": " ++ jsonValue kv.2) ++ "\x7d"

/-- The per-field message `_publish_data` sends for one non-timestamp entry:
topic `<prefix>/sensor/<field>`, payload `str(value)`, retained. -/
def sensorMsg (pfx : String) (kv : String × Value) : Message :=
  { topic := pfx ++ "/sensor/" ++ kv.1, payload := kv.2.toStr, retain := true }

/-- The aggregate message `_publish_data` sends: topic `<prefix>/data`,
payload the JSON dump of the whole snapshot, retained. -/
def dataMsg (pfx : String) (data : List (String × Value)) : Message :=
  { topic := pfx ++ "/data", payload := jsonDump data, retain := true }

/-- Embedding of `TrydanMQTTBridge._publish_data(data)`: the list of MQTT
publish calls it makes. `clientSet` is the `self.mqtt_client` truthiness
test; `not data` is true exactly for the empty dict, and on either guard the
method returns having published nothing. Otherwise it publishes one retained
message per non-timestamp field, then the retained JSON aggregate. -/
def publishData (clientSet : Bool) (pfx : String)
    (data : List (String × Value)) : List Message :=
  if !clientSet || data.isEmpty then []
  else
    (data.filter fun kv => kv.1 ≠ "timestamp").map (sensorMsg pfx)
      ++ [dataMsg pfx data]

/-- The fields of one `pytrydan` data object, as read by
`_read_trydan_data`; each is an opaque scalar. -/
structure TrydanData where
  charge_state : Value
  intensity : Value
  charge_power : Value
  charge_energy : Value
  charge_time : Value
  voltage_installation : Value
  house_power : Value
  battery_power : Value
  fv_power : Value
  max_intensity : Value
  min_intensity : Value
  ready_state : Value
  locked : Value
  paused : Value
  dynamic : Value
  contracted_power : Value
  firmware_version : Value
  ID : Value
  IP : Value
  signal_status : Value
  deriving DecidableEq, Repr

/-- Embedding of `TrydanMQTTBridge._read_trydan_data`. `connected` is the
`self.trydan` truthiness test; `result` is the outcome of
`await self.trydan.get_data()` (`none` when it raises — the broad
`try/except` then returns `None`); `now` is `datetime.now().isoformat()`.
On success the full 21-key dict is built in one literal, so the result is
either `none` or a complete snapshot, never a partial one. -/
def readTrydanData (connected : Bool) (result : Option TrydanData)
    (now : String) : Option Snapshot :=
  if connected = false then none
  else
    match result with
    | none => none
    | some d => some
        [("timestamp", .str now),
         ("status", d.charge_state),
         ("charging_current", d.intensity),
         ("charging_power", d.charge_power),
         ("energy_delivered", d.charge_energy),
         ("charge_time", d.charge_time),
         ("voltage", d.voltage_installation),
         ("house_power", d.house_power),
         ("battery_power", d.battery_power),
         ("fv_power", d.fv_power),
         ("max_intensity", d.max_intensity),
         ("min_intensity", d.min_intensity),
         ("ready_state", d.ready_state),
         ("locked", d.locked),
         ("paused", d.paused),
         ("dynamic", d.dynamic),
         ("contracted_power", d.contracted_power),
         ("firmware_version", d.firmware_version),
         ("device_id", d.ID),
         ("ip_address", d.IP),
         ("signal_status", d.signal_status)]

/-- The key sequence of every snapshot `_read_trydan_data` returns. -/
def snapshotKeys : List String :=
  ["timestamp", "status", "charging_current", "charging_power",
   "energy_delivered", "charge_time", "voltage", "house_power",
   "battery_power", "fv_power", "max_intensity", "min_intensity",
   "ready_state", "locked", "paused", "dynamic", "contracted_power",
   "firmware_version", "device_id", "ip_address", "signal_status"]

/-- The controller states of the spec's lifecycle state machine, mapped onto
the phases of `TrydanMQTTBridge.run` / `_shutdown`. -/
inductive Phase where
  | starting
  | connectingDevice
  | connectingBus
  | running
  | shuttingDown
  | stopped
  deriving DecidableEq, Repr

/-- One observable cycle of the main `while self.running` loop: either the
read succeeded and the snapshot was published, or `_read_trydan_data`
returned `None` and the cycle logged `"No data received"` and published
nothing. -/
inductive PollEvent where
  | published (s : Snapshot)
  | warnedNoData
  deriving DecidableEq, Repr

/-- The externally observable actions of one `run()` invocation. A
`deviceDisconnect` action exists in the vocabulary (the spec names one) but
`_shutdown` performs none: the code only notes that the Trydan HTTP client
needs no explicit disconnection. -/
inductive RunEvent where
  | deviceConnectAttempt
  | busConnectAttempt
  | availability (online retained : Bool)
  | poll (e : PollEvent)
  | deviceDisconnect
  | busDisconnect
  deriving DecidableEq, Repr

/-- The loop body of `run()` on one read outcome: publish on `some`, warn
and skip on `none`. A failed read is caught inside `_read_trydan_data`, so
the loop body never raises on it and the loop always proceeds. -/
def pollCycle : Option Snapshot → PollEvent
  | some s => .published s
  | none => .warnedNoData

/-- The poll-loop portion of the trace: one cycle per read outcome, every
cycle in the `Running` phase. The list of outcomes is the sequence of reads
performed before the `running` flag was observed cleared. -/
def loopTrace (reads : List (Option Snapshot)) : List (Phase × RunEvent) :=
  reads.map fun r => (Phase.running, RunEvent.poll (pollCycle r))

/-- Embedding of `TrydanMQTTBridge._shutdown` when the MQTT client is set:
publish `offline` retained, then stop and disconnect the MQTT client.
`busDiscOk` abstracts whether `loop_stop`/`disconnect` raise; the
surrounding `try/except` swallows either outcome, so the emitted actions do
not depend on it. No device disconnect is performed. -/
def shutdownTrace (busDiscOk : Bool) : List (Phase × RunEvent) :=
  [(Phase.shuttingDown, RunEvent.availability false true),
   (Phase.shuttingDown, RunEvent.busDisconnect)]

/-- Embedding of `TrydanMQTTBridge.run()`: the trace of observable actions,
each tagged with the controller phase. `devOk` is the outcome of
`_connect_trydan` (its own exceptions are caught and turned into `False`),
`busOk` of `_connect_mqtt`. On `devOk = false` the method returns at once:
no bus connect is attempted, nothing is published, no shutdown runs (the
`try/finally` around the loop is not yet entered). On `busOk = false`
likewise. Otherwise `online` is published retained as the first action of
`Running`, the loop runs, and `_shutdown` always follows via `finally`. -/
def bridgeRun (devOk busOk : Bool) (reads : List (Option Snapshot))
    (busDiscOk : Bool) : List (Phase × RunEvent) :=
  (Phase.connectingDevice, RunEvent.deviceConnectAttempt) ::
    if devOk = false then []
    else
      (Phase.connectingBus, RunEvent.busConnectAttempt) ::
        if busOk = false then []
        else
          (Phase.running, RunEvent.availability true true) ::
            (loopTrace reads ++ shutdownTrace busDiscOk)

/-- Embedding of `main()`: the process exit code paired with the `run()`
trace. A config error (missing file, bad YAML, missing section) raises in
the `TrydanMQTTBridge` constructor, is caught in `main`, and exits via
`sys.exit(1)`. `run()` itself catches every connect failure and loop
exception internally and returns normally, so on a loadable config the
process always exits `0` — a failed device or bus connect is logged,
not escalated. -/
def mainRun (configOk devOk busOk : Bool) (reads : List (Option Snapshot))
    (busDiscOk : Bool) : Nat × List (Phase × RunEvent) :=
  if configOk = false then (1, [])
  else (0, bridgeRun devOk busOk reads busDiscOk)

/-- Is this run event an availability publish with payload `online`? -/
def RunEvent.isOnlineAvail : RunEvent → Bool
  | .availability true _ => true
  | _ => false

/-- Is this run event an availability publish (either payload)? -/
def RunEvent.isAvail : RunEvent → Bool
  | .availability _ _ => true
  | _ => false

/-- Is this poll-loop event a snapshot publish? -/
def PollEvent.isPublished : PollEvent → Bool
  | .published _ => true
  | .warnedNoData => false

/-- Is this run event a snapshot publish from the poll loop? -/
def RunEvent.isSnapshotPublish : RunEvent → Bool
  | .poll e => e.isPublished
  | _ => false

/-- A sample snapshot, used to instantiate lifecycle statements. -/
def exSnap : Snapshot := [("timestamp", Value.str "t")]

/-- A sample two-field snapshot dict, used to instantiate publish
statements. -/
def exData : List (String × Value) :=
  [("timestamp", Value.str "t"), ("charging_power", Value.int 10)]

/-- No event of the poll-loop portion of a trace satisfies a predicate that
is false on every poll event. -/
theorem countP_loop_events (p : RunEvent → Bool)
    (hp : ∀ e, p (RunEvent.poll e) = false)
    (reads : List (Option Snapshot)) :
    (reads.map fun r => RunEvent.poll (pollCycle r)).countP p = 0 := by
  induction reads with
  | nil => rfl
  | cons r rs ih => simp [List.countP_cons, hp, ih]

/-- The run events of the poll-loop portion of a trace. -/
theorem loopTrace_map_snd (reads : List (Option Snapshot)) :
    (loopTrace reads).map Prod.snd
      = reads.map fun r => RunEvent.poll (pollCycle r) := by
  simp [loopTrace]

/-- Every entry of the poll-loop portion of a trace is a poll event tagged
with the `Running` phase. -/
theorem loopTrace_mem (reads : List (Option Snapshot)) :
    ∀ pe ∈ loopTrace reads,
      pe.1 = Phase.running ∧ ∃ e, pe.2 = RunEvent.poll e := by
  intro pe hpe
  simp only [loopTrace, List.mem_map] at hpe
  obtain ⟨r, _, rfl⟩ := hpe
  exact ⟨rfl, pollCycle r, rfl⟩

/-- Removing the one entry with a given key from a dict with distinct keys
shortens it by exactly one. -/
theorem length_filter_key_ne (k : String) (data : List (String × Value))
    (hmem : k ∈ data.map Prod.fst) (hnd : (data.map Prod.fst).Nodup) :
    (data.filter fun kv => kv.1 ≠ k).length = data.length - 1 := by
  induction data with
  | nil => simp at hmem
  | cons kv t ih =>
      rw [List.map_cons] at hmem hnd
      rw [List.nodup_cons] at hnd
      obtain ⟨hnotin, hndt⟩ := hnd
      by_cases hk : kv.1 = k
      · have hall : ∀ x ∈ t, ¬(x.1 = k) := by
          intro x hx hxk
          exact hnotin (hk ▸ hxk ▸ List.mem_map_of_mem Prod.fst hx)
        simp [List.filter_cons, hk]
        intro a b hab
        exact hall (a, b) hab
      · have hmem' : k ∈ t.map Prod.fst := by
          rcases List.mem_cons.1 hmem with h | h
          · exact absurd h.symm hk
          · exact h
        have hpos : 0 < t.length := by
          rcases t with _ | _
          · simp at hmem'
          · simp
        have hlen := ih hmem' hndt
        simp only [ne_eq, decide_not] at hlen ⊢
        simp [List.filter_cons, hk, hlen]
        omega

/-- C8: every successful device read produces a complete snapshot — the
result of `_read_trydan_data` is either `None` or a dict whose keys are
exactly the 21 snapshot keys, `timestamp` (holding the read time) first; a
failed device read (`result = none`) yields no snapshot at all. -/
theorem read_produces_complete_snapshot_or_none (connected : Bool)
    (result : Option TrydanData) (now : String) :
    readTrydanData connected none now = none
    ∧ ∀ snap, readTrydanData connected result now = some snap →
        snap.map Prod.fst = snapshotKeys ∧ ("timestamp", Value.str now) ∈ snap := by
  constructor
  · cases connected <;> simp [readTrydanData]
  · intro snap hsnap
    cases connected with
    | false => simp [readTrydanData] at hsnap
    | true =>
        cases result with
        | none => simp [readTrydanData] at hsnap
        | some d =>
            simp only [readTrydanData] at hsnap
            rw [if_neg (by simp)] at hsnap
            obtain rfl := (Option.some_inj.1 hsnap).symm
            constructor
            · simp [snapshotKeys]
            · simp

/-- C9: `_publish_data` publishes nothing at all when the MQTT client is not
set or when the data dict is empty — no per-field messages and no aggregate
message — so the per-field count formula only concerns nonempty snapshots. -/
theorem publish_nothing_when_no_client_or_empty (clientSet : Bool)
    (pfx : String) (data : List (String × Value)) :
    publishData false pfx data = [] ∧ publishData clientSet pfx [] = [] := by
  constructor <;> simp [publishData]

/-- C6: dispatching `set_charge_current` with payload `"16"` invokes the
device intensity operation with the coerced number 16; with payload `"abc"`
the coercion raises, the handler invokes no device operation, logs the
failure at error level, and lets no exception escape to the bus. -/
theorem set_charge_current_16_and_abc (deviceRaises : Bool) :
    (handleCommand true deviceRaises "set_charge_current" "16").calls
      = [DeviceCall.intensity 16]
    ∧ (handleCommand true deviceRaises "set_charge_current" "abc").calls = []
    ∧ (handleCommand true deviceRaises "set_charge_current" "abc").errorLogged
      = true
    ∧ (handleCommand true deviceRaises "set_charge_current" "abc").raised
      = false := by
  have h16 : pyFloat "16" = some (16 : Rat) := by
    have h : "16".toList = ['1', '6'] := by rfl
    simp [pyFloat, h, parseUnsigned, natOfDigits]
  have habc : pyFloat "abc" = none := by
    have h : "abc".toList = ['a', 'b', 'c'] := by rfl
    simp [pyFloat, h, parseUnsigned, natOfDigits]
  have ht : truncToZero (16 : Rat) = 16 := by
    rw [truncToZero, if_neg (by norm_num)]
    norm_num
  refine ⟨?_, ?_, ?_, ?_⟩ <;> simp [handleCommand, h16, habc, ht]

/-- C7: dispatching any command name outside the known set invokes no device
operation at all, logs the unknown-command warning, and lets no exception
escape to the bus, whatever the payload. -/
theorem unknown_command_no_device_call (command payload : String)
    (deviceRaises : Bool) (h : command ∉ knownCommands) :
    (handleCommand true deviceRaises command payload).calls = []
    ∧ (handleCommand true deviceRaises command payload).warnLogged = true
    ∧ (handleCommand true deviceRaises command payload).raised = false := by
  simp only [knownCommands, List.mem_cons, List.not_mem_nil, or_false,
    not_or] at h
  obtain ⟨h1, h2, h3, h4, h5⟩ := h
  simp [handleCommand, h1, h2, h3, h4, h5]

/-- Closes the hypotheses of the unknown-command theorem at the concrete
command `"reboot"` with payload `"now"`. -/
theorem unknown_command_no_device_call_witness :
    (handleCommand true false "reboot" "now").calls = []
    ∧ (handleCommand true false "reboot" "now").warnLogged = true
    ∧ (handleCommand true false "reboot" "now").raised = false :=
  unknown_command_no_device_call "reboot" "now" false (by decide)

/-- C10: the `set_charge_current` coercion is `int(float(payload))`: every
payload the float parse accepts — fractional literals included — yields one
device intensity call with the parsed value truncated toward zero (floor
for nonnegative values, ceiling for negative ones). -/
theorem set_charge_current_accepts_decimals (payload : String) (q : Rat)
    (deviceRaises : Bool) (h : pyFloat payload = some q) :
    (handleCommand true deviceRaises "set_charge_current" payload).calls
      = [DeviceCall.intensity (truncToZero q)]
    ∧ (0 ≤ q → truncToZero q = Int.floor q)
    ∧ (q < 0 → truncToZero q = Int.ceil q) := by
  refine ⟨by simp [handleCommand, h], ?_, ?_⟩
  · intro hq
    rw [truncToZero, if_neg (by exact not_lt.2 hq)]
  · intro hq
    rw [truncToZero, if_pos hq]

/-- Closes the hypotheses of the decimal-coercion theorem at the concrete
fractional payload `"16.9"`, which is accepted and truncated to 16. -/
theorem set_charge_current_accepts_decimals_witness :
    (handleCommand true false "set_charge_current" "16.9").calls
      = [DeviceCall.intensity 16] := by
  have h : pyFloat "16.9" = some (169 / 10) := by
    have hl : "16.9".toList = ['1', '6', '.', '9'] := by rfl
    simp [pyFloat, hl, parseUnsigned, natOfDigits]
    norm_num
  have hc :=
    (set_charge_current_accepts_decimals "16.9" (169 / 10) false h).1
  rw [hc]
  have ht : truncToZero (169 / 10) = 16 := by
    rw [truncToZero, if_neg (by norm_num)]
    norm_num
  rw [ht]

/-- A predicate false on a list's one repeated element counts nothing. -/
theorem countP_replicate_zero {α : Type} (p : α → Bool) (x : α)
    (hx : p x = false) (n : Nat) :
    (List.replicate n x).countP p = 0 := by
  induction n with
  | zero => rfl
  | succ n ih => simp [List.replicate_succ, List.countP_cons, hx, ih]

/-- C3: publishing a snapshot dict with distinct keys, one of them
`timestamp`, emits the per-field retained message for each of the
`|S| - 1` non-timestamp fields (topic `<prefix>/sensor/<field>`, payload
the string form of the value) followed by the one retained aggregate JSON
message at `<prefix>/data`, and every emitted message is retained. -/
theorem publish_snapshot_message_count (pfx : String)
    (data : List (String × Value))
    (hmem : "timestamp" ∈ data.map Prod.fst)
    (hnd : (data.map Prod.fst).Nodup) :
    publishData true pfx data
      = (data.filter fun kv => kv.1 ≠ "timestamp").map (sensorMsg pfx)
        ++ [dataMsg pfx data]
    ∧ (data.filter fun kv => kv.1 ≠ "timestamp").length = data.length - 1
    ∧ (publishData true pfx data).length = (data.length - 1) + 1
    ∧ ∀ m ∈ publishData true pfx data, m.retain = true := by
  have hne : data.isEmpty = false := by
    cases data
    · simp at hmem
    · rfl
  have heq : publishData true pfx data
      = (data.filter fun kv => kv.1 ≠ "timestamp").map (sensorMsg pfx)
        ++ [dataMsg pfx data] := by
    simp [publishData, hne]
  have hflen := length_filter_key_ne "timestamp" data hmem hnd
  refine ⟨heq, by simpa using hflen, ?_, ?_⟩
  · rw [heq]
    simp only [List.length_append, List.length_map, List.length_singleton]
    omega
  · intro m hm
    rw [heq] at hm
    rcases List.mem_append.1 hm with h | h
    · obtain ⟨kv, _, rfl⟩ := List.mem_map.1 h
      rfl
    · rw [List.mem_singleton] at h
      subst h
      rfl

/-- Closes the hypotheses of the publish-count theorem on the concrete
two-field snapshot `exData`: one per-field message plus the aggregate. -/
theorem publish_snapshot_message_count_witness :
    (publishData true "trydan" exData).length = 2 := by
  have h :=
    (publish_snapshot_message_count "trydan" exData (by decide) (by decide)).2.2.1
  norm_num [exData] at h
  exact h

/-- C4: a failed read never terminates the poll loop — on N failed reads
followed by one successful read the loop runs all N + 1 cycles, the first
N publishing nothing (each only logs the no-data warning) and the last one
publishing the snapshot; across the whole run exactly one snapshot publish
occurs. -/
theorem read_failures_skip_cycles (N : Nat) (s : Snapshot) :
    loopTrace (List.replicate N none ++ [some s])
      = List.replicate N (Phase.running, RunEvent.poll PollEvent.warnedNoData)
        ++ [(Phase.running, RunEvent.poll (PollEvent.published s))]
    ∧ ((bridgeRun true true (List.replicate N none ++ [some s]) true).map
        Prod.snd).countP RunEvent.isSnapshotPublish = 1 := by
  constructor
  · simp [loopTrace, List.map_append, List.map_replicate, pollCycle]
  · have h1 : (loopTrace (List.replicate N none ++ [some s])).map Prod.snd
        = List.replicate N (RunEvent.poll PollEvent.warnedNoData)
          ++ [RunEvent.poll (PollEvent.published s)] := by
      simp [loopTrace, List.map_map, List.map_append, List.map_replicate,
        Function.comp, pollCycle]
    have h2 := countP_replicate_zero RunEvent.isSnapshotPublish
      (RunEvent.poll PollEvent.warnedNoData) rfl N
    rw [bridgeRun, if_neg (by simp), if_neg (by simp)]
    simp [List.countP_cons, List.countP_append, h1, h2, shutdownTrace,
      RunEvent.isSnapshotPublish, PollEvent.isPublished]

/-- The poll-loop portion of a trace contains no availability event. -/
theorem loopTrace_filter_avail (reads : List (Option Snapshot)) :
    (loopTrace reads).filter (fun pe => RunEvent.isAvail pe.2) = [] := by
  induction reads with
  | nil => rfl
  | cons r rs ih =>
      simp only [loopTrace, List.map_cons] at ih ⊢
      simp [List.filter_cons, RunEvent.isAvail, ih]

/-- C1 fails on the code at the concrete run where the config loads but the
device connection test fails: the process exit code is 0, not non-zero —
even though, as claimed, no bus connect is attempted and no availability
message is published. -/
theorem device_connect_failure_exit_counterexample :
    (mainRun true false true [] true).1 = 0
    ∧ RunEvent.busConnectAttempt
        ∉ ((mainRun true false true [] true).2.map Prod.snd) := by
  constructor
  · rfl
  · decide

/-- C1 amended: when the initial Trydan connection test fails, `run`
returns at once — no bus connect is attempted and no availability message
is published — and the process exits cleanly with code 0 (the failure is
logged, not escalated; only a config error exits non-zero). -/
theorem device_connect_failure_aborts (busOk busDiscOk : Bool)
    (reads : List (Option Snapshot)) :
    (mainRun true false busOk reads busDiscOk).1 = 0
    ∧ RunEvent.busConnectAttempt
        ∉ ((mainRun true false busOk reads busDiscOk).2.map Prod.snd)
    ∧ ∀ pe ∈ (mainRun true false busOk reads busDiscOk).2,
        RunEvent.isAvail pe.2 = false := by
  refine ⟨rfl, ?_, ?_⟩
  · simp [mainRun, bridgeRun]
  · intro pe hpe
    simp [mainRun, bridgeRun] at hpe
    subst hpe
    rfl

/-- C2 fails on the code: on a clean run ending in shutdown, no device
disconnect is ever invoked — `_shutdown` only publishes `offline` and
disconnects the MQTT client (the Trydan client has no disconnect call). -/
theorem shutdown_no_device_disconnect_counterexample :
    RunEvent.deviceDisconnect
      ∉ ((bridgeRun true true [some exSnap] true).map Prod.snd) := by
  decide

/-- C2 amended: on a termination request while running, shutdown publishes
exactly one retained `offline` availability message and then invokes the
bus disconnect, whatever the outcome of that disconnect; no device
disconnect is invoked because the device session needs none. -/
theorem shutdown_offline_then_bus_disconnect (reads : List (Option Snapshot))
    (busDiscOk : Bool) :
    (bridgeRun true true reads busDiscOk).map Prod.snd
      = RunEvent.deviceConnectAttempt :: RunEvent.busConnectAttempt ::
          RunEvent.availability true true ::
          ((reads.map fun r => RunEvent.poll (pollCycle r))
            ++ [RunEvent.availability false true, RunEvent.busDisconnect])
    ∧ ((bridgeRun true true reads busDiscOk).map Prod.snd).countP
        (fun e => e = RunEvent.availability false true) = 1
    ∧ RunEvent.deviceDisconnect
        ∉ (bridgeRun true true reads busDiscOk).map Prod.snd := by
  have heq : (bridgeRun true true reads busDiscOk).map Prod.snd
      = RunEvent.deviceConnectAttempt :: RunEvent.busConnectAttempt ::
          RunEvent.availability true true ::
          ((reads.map fun r => RunEvent.poll (pollCycle r))
            ++ [RunEvent.availability false true, RunEvent.busDisconnect]) := by
    rw [bridgeRun, if_neg (by simp), if_neg (by simp)]
    simp [loopTrace, shutdownTrace, List.map_map, Function.comp]
  refine ⟨heq, ?_, ?_⟩
  · rw [heq]
    have h0 := countP_loop_events
      (fun e => decide (e = RunEvent.availability false true))
      (fun e => by simp) reads
    simp [List.countP_cons, List.countP_append, h0]
  · rw [heq]
    intro hmem
    simp only [List.mem_cons, List.mem_append, List.mem_map] at hmem
    rcases hmem with h | h | h | ⟨r, _, h⟩ | h <;> simp at h

/-- C5: an availability message carries payload `online` exactly when the
controller is in the `Running` phase; any lifetime publishes at most one
`online` message, and a lifetime whose startup succeeds (the clean-shutdown
case) publishes exactly the retained `online` on entering `Running` and one
terminal retained `offline` while shutting down. -/
theorem availability_online_iff_running (devOk busOk busDiscOk : Bool)
    (reads : List (Option Snapshot)) :
    (∀ pe ∈ bridgeRun devOk busOk reads busDiscOk, ∀ b r,
        pe.2 = RunEvent.availability b r → (b = true ↔ pe.1 = Phase.running))
    ∧ ((bridgeRun devOk busOk reads busDiscOk).map Prod.snd).countP
        RunEvent.isOnlineAvail ≤ 1
    ∧ (devOk = true → busOk = true →
        (bridgeRun devOk busOk reads busDiscOk).filter
            (fun pe => RunEvent.isAvail pe.2)
          = [(Phase.running, RunEvent.availability true true),
             (Phase.shuttingDown, RunEvent.availability false true)]) := by
  refine ⟨?_, ?_, ?_⟩
  · intro pe hpe b r heq
    cases devOk with
    | false =>
        rw [bridgeRun, if_pos rfl] at hpe
        rw [List.mem_singleton] at hpe
        subst hpe
        simp at heq
    | true =>
        rw [bridgeRun, if_neg (by simp)] at hpe
        cases busOk with
        | false =>
            rw [if_pos rfl] at hpe
            rcases List.mem_cons.1 hpe with rfl | hpe
            · simp at heq
            · rw [List.mem_singleton] at hpe
              subst hpe
              simp at heq
        | true =>
            rw [if_neg (by simp)] at hpe
            rcases List.mem_cons.1 hpe with rfl | hpe
            · simp at heq
            rcases List.mem_cons.1 hpe with rfl | hpe
            · simp at heq
            rcases List.mem_cons.1 hpe with rfl | hpe
            · injection heq with hb hr
              subst hb
              simp
            rcases List.mem_append.1 hpe with hloop | hsd
            · obtain ⟨_, e, hpoll⟩ := loopTrace_mem reads pe hloop
              rw [hpoll] at heq
              simp at heq
            · rcases List.mem_cons.1 hsd with rfl | hsd
              · injection heq with hb hr
                subst hb
                simp
              · rw [List.mem_singleton] at hsd
                subst hsd
                simp at heq
  · cases devOk with
    | false =>
        rw [bridgeRun, if_pos rfl]
        simp [RunEvent.isOnlineAvail]
    | true =>
        rw [bridgeRun, if_neg (by simp)]
        cases busOk with
        | false =>
            rw [if_pos rfl]
            simp [RunEvent.isOnlineAvail]
        | true =>
            rw [if_neg (by simp)]
            have h0 := countP_loop_events RunEvent.isOnlineAvail
              (fun e => rfl) reads
            simp [List.countP_cons, List.countP_append, loopTrace_map_snd,
              shutdownTrace, h0, RunEvent.isOnlineAvail]
  · intro hd hb
    subst hd
    subst hb
    rw [bridgeRun, if_neg (by simp), if_neg (by simp)]
    simp only [List.filter_cons, List.filter_append, loopTrace_filter_avail,
      shutdownTrace]
    simp [RunEvent.isAvail]

end Trydan2Mqtt
